import Mathlib

/-!
Verification of the option-chain poller (`src/main.py`).

The development shallow-embeds the program in Lean:

* JSON-like upstream responses become the inductive type `Json`
  (mapping / sequence / string / number / boolean / null; Python `dict`
  iteration order is the field-list order).
* Python machine floats are modelled as `ℚ` for finite values; where the
  distinction between finite and non-finite floats matters
  (`build_option_chain` on `NaN`), the tagged type `PyFloat` is used and
  the failing conversion is an `Except`.
* Every fallible Python operation (`float(...)` coercion, key lookup) is
  embedded with an explicit failure branch (`Option`), so the embedded
  functions are total exactly where the Python code swallows exceptions.

Functions keep the names of the source where Lean allows it
(`get_ltp`, `build_option_chain`, `format_message`, ...).
-/

/-- JSON-like value, the shape of a raw quote response
(`RawQuoteResponse` in the specification).  Mappings keep the
insertion order of the Python `dict` they model. -/
inductive Json where
  | null
  | bool (b : Bool)
  | num (q : ℚ)
  | str (s : String)
  | arr (elems : List Json)
  | obj (fields : List (String × Json))

/-- First binding of `key` in a field list: Python `key in d` / `d[key]`
(dict keys are unique, so first-match lookup is faithful). -/
def Json.lookup : List (String × Json) → String → Option Json
  | [], _ => none
  | (k, v) :: rest, key => if k = key then some v else Json.lookup rest key

/-- Python truthiness (`if not resp`): `None`, `False`, `0`, `""`, `[]`
and `{}` are falsy, everything else truthy. -/
def truthy : Json → Bool
  | .null => false
  | .bool b => b
  | .num q => if q = 0 then false else true
  | .str s => if s = "" then false else true
  | .arr [] => false
  | .arr (_ :: _) => true
  | .obj [] => false
  | .obj (_ :: _) => true

/-- Numeric value of a digit list, most significant first. -/
def digitsVal (cs : List Char) : ℕ :=
  cs.foldl (fun a c => a * 10 + (c.toNat - 48)) 0

/-- Leading and trailing whitespace removed (Python `str.strip()`,
also performed by `float()` itself). -/
def stripChars (cs : List Char) : List Char :=
  ((cs.dropWhile Char.isWhitespace).reverse.dropWhile Char.isWhitespace).reverse

/-- Discrete decomposition of a float literal: sign, integer-part
value, fraction-part value and digit count, exponent sign and value. -/
structure FloatParts where
  negative : Bool
  ipVal : ℕ
  fpVal : ℕ
  fpLen : ℕ
  expNegative : Bool
  expVal : ℕ
deriving DecidableEq

/-- Optional exponent suffix of a float literal (`e`/`E`, optional
sign, digits); anything else trailing makes the parse fail. -/
def exponentSuffix (cs : List Char) : Option (Bool × ℕ) :=
  match cs with
  | [] => some (false, 0)
  | c :: t =>
    if c = 'e' ∨ c = 'E' then
      let eneg : Bool := match t with
        | c2 :: _ => c2 = '-'
        | [] => false
      let t2 := match t with
        | c2 :: r => if c2 = '+' ∨ c2 = '-' then r else t
        | [] => t
      let ds := t2.takeWhile Char.isDigit
      let rest := t2.dropWhile Char.isDigit
      if ds.isEmpty ∨ !rest.isEmpty then none
      else some (eneg, digitsVal ds)
    else none

/-- Discrete core of Python `float(string)` on the decimal subset
(optional sign, digits, optional decimal point, optional exponent);
`inf`/`nan`/underscored literals are outside the model. -/
def floatPartsCore (cs : List Char) : Option FloatParts :=
  let neg : Bool := match cs with
    | c :: _ => c = '-'
    | [] => false
  let cs1 := match cs with
    | c :: t => if c = '+' ∨ c = '-' then t else cs
    | [] => cs
  let ip := cs1.takeWhile Char.isDigit
  let cs2 := cs1.dropWhile Char.isDigit
  let fp := match cs2 with
    | c :: t => if c = '.' then t.takeWhile Char.isDigit else []
    | [] => []
  let cs3 := match cs2 with
    | c :: t => if c = '.' then t.dropWhile Char.isDigit else cs2
    | [] => cs2
  if ip.isEmpty ∧ fp.isEmpty then none
  else
    match exponentSuffix cs3 with
    | none => none
    | some (eneg, ev) => some ⟨neg, digitsVal ip, digitsVal fp, fp.length, eneg, ev⟩

/-- Rational value of a parsed float literal. -/
def partsToRat (p : FloatParts) : ℚ :=
  let sgn : ℚ := if p.negative then -1 else 1
  let mant : ℚ := (p.ipVal : ℚ) + (p.fpVal : ℚ) / (10 : ℚ) ^ p.fpLen
  let ex : ℤ := if p.expNegative then -(p.expVal : ℤ) else (p.expVal : ℤ)
  sgn * mant * (10 : ℚ) ^ ex

/-- Python `float(s)`: strips surrounding whitespace, parses the
decimal literal, and assembles the value. -/
def pyFloatOfString (s : String) : Option ℚ :=
  (floatPartsCore (stripChars s.toList)).map partsToRat

/-- Python `s.replace(",", "")`: thousands separators removed. -/
def removeCommas (s : String) : String :=
  String.mk (s.toList.filter (fun c => !(c == ',')))

/-- `float(str(v).replace(",", ""))` of the direct key probe: numbers
round-trip exactly through `str`; strings are parsed after comma
stripping; every other value (`True`, `None`, lists, dicts) renders to a
non-numeric string, so the coercion fails. -/
def coerceDirect : Json → Option ℚ
  | .num q => some q
  | .str s => pyFloatOfString (removeCommas s)
  | _ => none

/-- `v not in (None, "")` fails exactly for `None` and the empty string
(Python `in` compares with `==`). -/
def excludedVal : Json → Bool
  | .null => true
  | .str s => if s = "" then true else false
  | _ => false

/-- One step of the direct probe (`if key in body and body[key] not in
(None, "") : try float(...) except: pass`): the key must be present,
non-excluded, and coercible; any failure means "try the next key". -/
def probeKey (fs : List (String × Json)) (key : String) : Option ℚ :=
  match Json.lookup fs key with
  | none => none
  | some v => if excludedVal v then none else coerceDirect v

/-- The fixed synonym list of the direct probe, in source order. -/
def ltpKeys : List String :=
  ["LTP", "ltp", "lastPrice", "last_traded_price", "lastTradedPrice", "last"]

/-- Direct probe of one candidate body: first usable key of `ltpKeys`
wins; non-mapping bodies yield nothing. -/
def probeBody : Json → Option ℚ
  | .obj fs => ltpKeys.findSome? (probeKey fs)
  | _ => none

/-- Container keys tried for candidate bodies, in source order. -/
def containerKeys : List String :=
  ["data", "result", "response", "payload"]

/-- Candidate bodies of the direct probe, in the order the source builds
them: the values under `data`, `result`, `response`, `payload` (each
only if present), and the response itself appended last. -/
def bodyCandidates (fs : List (String × Json)) : List Json :=
  containerKeys.filterMap (Json.lookup fs) ++ [Json.obj fs]

/-- The needle occurs as a contiguous run of the haystack. -/
def containsSubAux (needle : List Char) : List Char → Bool
  | [] => needle.isEmpty
  | c :: t => needle.isPrefixOf (c :: t) || containsSubAux needle t

/-- Substring test (`needle in hay` on Python strings). -/
def containsSub (needle hay : String) : Bool :=
  containsSubAux needle.toList hay.toList

/-- `k.lower()`, characterwise (the searched substrings are ASCII, so
ASCII lowering is what the comparison depends on). -/
def lowerStr (k : String) : String :=
  String.mk (k.toList.map Char.toLower)

/-- Key-name filter of the deep scan: the lowercased key must contain
one of `ltp`, `last`, `price`, `lt`. -/
def keyMatch (k : String) : Bool :=
  let l := lowerStr k
  containsSub "ltp" l || containsSub "last" l || containsSub "price" l || containsSub "lt" l

/-- Leaf contribution of one mapping entry in the deep scan: numeric
values (Python counts `bool` as numeric, `float(True) = 1.0`) and
numeric-looking strings (after comma stripping and `strip()`) are
collected when the key name matches. -/
def leafHit (k : String) (v : Json) : List ℚ :=
  match v with
  | .num q => if keyMatch k then [q] else []
  | .bool b => if keyMatch k then [if b then (1 : ℚ) else 0] else []
  | .str s =>
    match pyFloatOfString (removeCommas s) with
    | some f => if keyMatch k then [f] else []
    | none => []
  | _ => []

/-- Fuel-indexed deep scan.  The source recursion carries `depth` up to
`max_depth` and stops when `depth > max_depth`; here `fuel` stands for
`max_depth + 1 - depth`, which makes the recursion structural.  Mapping
entries contribute their own leaf hit before their recursive hits;
sequences are cut to their first 200 elements (`obj[:200]`). -/
def deepSearchFuel : ℕ → Json → List ℚ
  | 0, _ => []
  | n + 1, .obj fs => fs.flatMap (fun p => leafHit p.1 p.2 ++ deepSearchFuel n p.2)
  | n + 1, .arr xs => (xs.take 200).flatMap (fun x => deepSearchFuel n x)
  | _ + 1, _ => []

/-- `OptionChainBot._deep_search_numeric_candidates` (paths dropped:
the source only logs them; the returned prices are what is used). -/
def deep_search_numeric_candidates (obj : Json) (depth maxDepth : ℕ) : List ℚ :=
  deepSearchFuel (maxDepth + 1 - depth) obj

/-- Extraction applied to a dhanhq response inside `get_ltp` (source
lines 138-177): `None`/falsy responses yield absence; mapping responses
get the direct candidate-body probe and then the deep scan (first hit
returned); non-mapping responses fall through to `return None`. -/
def get_ltp_extract (resp : Option Json) : Option ℚ :=
  match resp with
  | none => none
  | some r =>
    if truthy r then
      match r with
      | .obj fs =>
        match (bodyCandidates fs).findSome? probeBody with
        | some v => some v
        | none => (deep_search_numeric_candidates (.obj fs) 0 4).head?
      | _ => none
    else none

/-- Key list of the HTTP fallback probe (shorter than the dhan one). -/
def httpKeys : List String :=
  ["LTP", "ltp", "lastPrice", "last_traded_price"]

/-- Direct probe of the HTTP fallback body. -/
def probeBodyHttp : Json → Option ℚ
  | .obj fs => httpKeys.findSome? (probeKey fs)
  | _ => none

/-- Extraction applied to a decoded HTTP fallback payload (source lines
197-214): `body = j.get("data") if "data" in j else j`, direct probe of
four keys, then the deep scan over the whole payload (here the scan runs
even for non-mapping payloads). -/
def http_extract (j : Json) : Option ℚ :=
  let direct : Option ℚ :=
    match j with
    | .obj fs =>
      match Json.lookup fs "data" with
      | some d => probeBodyHttp d
      | none => probeBodyHttp (.obj fs)
    | _ => none
  match direct with
  | some v => some v
  | none => (deep_search_numeric_candidates j 0 4).head?

/-- Module-level configuration that decides which branch `get_ltp`
takes: whether the dhanhq client was initialized (`dhan` is not `None`)
and the `DHAN_ACCESS_TOKEN` value. -/
structure BotConfig where
  dhanPresent : Bool
  dhanAccessToken : String

/-- `OptionChainBot.get_ltp`.  The two upstream calls are oracles
mapping `(security_id, exchange)` to an optional decoded response;
`none` stands for a call that raised or returned nothing (the source
catches the exception and sets `resp = None` in the dhan branch, and the
outer `except` returns `None` in the HTTP branch).  With a dhan client
the dhan-branch extraction runs; otherwise an empty access token skips
the HTTP fallback entirely. -/
def get_ltp (cfg : BotConfig) (dhanFetch httpFetch : String → String → Option Json)
    (security_id exchange : String) : Option ℚ :=
  if cfg.dhanPresent then get_ltp_extract (dhanFetch security_id exchange)
  else if cfg.dhanAccessToken = "" then none
  else
    match httpFetch security_id exchange with
    | none => none
    | some j => http_extract j

/-- Round half to even, the semantics of Python `round` on an exact
value (the tie `round(352.5)` goes to `352`). -/
def roundHalfEven (q : ℚ) : ℤ :=
  let n := ⌊q⌋
  let frac := q - (n : ℚ)
  if frac < 1 / 2 then n
  else if 1 / 2 < frac then n + 1
  else if n % 2 = 0 then n else n + 1

/-- Placeholder option leg, the dict returned by
`OptionChainBot.get_option_data`. -/
structure OptionLeg where
  ltp : ℚ
  oi : ℤ
  iv : Option ℚ
  volume : ℤ

/-- One row of the placeholder chain
(`{"strike": ..., "CE": ..., "PE": ..., "is_atm": ...}`). -/
structure ChainRow where
  strike : ℤ
  CE : OptionLeg
  PE : OptionLeg
  is_atm : Bool

/-- `OptionChainBot.get_nearest_expiry` (fixed placeholder value). -/
def get_nearest_expiry (symbol : String) : String :=
  "2025-10-03"

/-- `OptionChainBot.get_option_data` (fixed placeholder leg). -/
def get_option_data (symbol : String) (strike : ℤ) (side : String) (expiry : String) :
    OptionLeg :=
  ⟨0, 0, none, 0⟩

/-- `interval = 50 if symbol.upper().startswith("NIFTY") else 50`. -/
def strike_interval (symbol : String) : ℤ :=
  if symbol.toUpper.startsWith "NIFTY" then 50 else 50

/-- `atm = round(spot_price / interval) * interval`. -/
def atm_strike (symbol : String) (spot_price : ℚ) : ℤ :=
  roundHalfEven (spot_price / (strike_interval symbol : ℚ)) * strike_interval symbol

/-- `OptionChainBot.build_option_chain`: rows for `i` in
`range(-window, window + 1)`, reindexed as `i = j - window` for
`j` in `range(2 * window + 1)`. -/
def build_option_chain (window : ℕ) (symbol : String) (spot_price : ℚ) : List ChainRow :=
  let interval := strike_interval symbol
  let atm := atm_strike symbol spot_price
  let expiry := get_nearest_expiry symbol
  (List.range (2 * window + 1)).map (fun (j : ℕ) =>
    let i : ℤ := (j : ℤ) - (window : ℤ)
    let strike := atm + i * interval
    ⟨strike, get_option_data symbol strike "CE" expiry,
      get_option_data symbol strike "PE" expiry, i == 0⟩)

/-- A Python machine float, with its non-finite values, for the places
where `NaN`/`inf` behaviour is observable. -/
inductive PyFloat where
  | finite (q : ℚ)
  | nan
  | inf
  | ninf

/-- Division of a float by a nonzero positive literal: non-finite
values are preserved. -/
def pyFloatDiv (x : PyFloat) (d : ℚ) : PyFloat :=
  match x with
  | .finite q => .finite (q / d)
  | y => y

/-- Python `round(x)` on a float: finite values round half to even;
`NaN` raises `ValueError` and the infinities raise `OverflowError`. -/
def pyRoundToInt : PyFloat → Except String ℤ
  | .finite q => .ok (roundHalfEven q)
  | .nan => .error "cannot convert float NaN to integer"
  | .inf => .error "cannot convert float infinity to integer"
  | .ninf => .error "cannot convert float infinity to integer"

/-- `build_option_chain` on a possibly non-finite spot price: the
rounding step is the only failing operation and nothing in the source
catches it, so its error propagates. -/
def build_option_chain_float (window : ℕ) (symbol : String) (spot : PyFloat) :
    Except String (List ChainRow) :=
  match pyRoundToInt (pyFloatDiv spot (strike_interval symbol : ℚ)) with
  | .error e => .error e
  | .ok r =>
    let interval := strike_interval symbol
    let atm := r * interval
    let expiry := get_nearest_expiry symbol
    .ok ((List.range (2 * window + 1)).map (fun (j : ℕ) =>
      let i : ℤ := (j : ℤ) - (window : ℤ)
      let strike := atm + i * interval
      ⟨strike, get_option_data symbol strike "CE" expiry,
        get_option_data symbol strike "PE" expiry, i == 0⟩))

/-- Left padding with spaces, Python format `f"{s:>w}"`. -/
def padCharsLeft (w : ℕ) (s : String) : String :=
  String.mk (List.replicate (w - s.length) ' ') ++ s

/-- The two digits after the decimal point of a `.2f` rendering. -/
def fracTwo (m : ℕ) : String :=
  String.mk [Nat.digitChar (m / 10 % 10), Nat.digitChar (m % 10)]

/-- Python `f"{q:.2f}"` on an exact value: round half to even at two
decimals, keep the sign of the input (so `-0.004` renders `-0.00`). -/
def pyFormatFloat2 (q : ℚ) : String :=
  let m := (roundHalfEven (|q| * 100)).toNat
  (if q < 0 then "-" else "") ++ toString (m / 100) ++ "." ++ fracTwo m

/-- One chain row of the report, the f-string of the source loop:
marker, strike right-aligned to 7, both leg prices right-aligned to 10
with two decimals. -/
def format_row (r : ChainRow) : String :=
  (if r.is_atm then "➤" else " ") ++ padCharsLeft 7 (toString r.strike) ++ " "
    ++ padCharsLeft 10 (pyFormatFloat2 r.CE.ltp) ++ " "
    ++ padCharsLeft 10 (pyFormatFloat2 r.PE.ltp) ++ "\n"

/-- `OptionChainBot.format_message`, with the render timestamp
(`current_ts()`) passed explicitly. -/
def format_message (ts : String) (symbol : String) (spot_price : ℚ)
    (chain : List ChainRow) : String :=
  let msg := "🔔 *" ++ symbol ++ " Option Chain Update*\n"
  let msg := msg ++ "📊 *Spot Price:* ₹" ++ pyFormatFloat2 spot_price ++ "\n"
  let msg := msg ++ "⏰ *Time:* " ++ ts ++ "\n"
  let msg := msg ++ "━━━━━━━━━━━━━━━━━━━━\n\n"
  let msg := msg ++ "```\n"
  let msg := msg ++ padCharsLeft 7 "Strike" ++ " " ++ padCharsLeft 10 "CE LTP" ++ " "
    ++ padCharsLeft 10 "PE LTP" ++ "\n"
  let msg := msg ++ String.mk (List.replicate 35 '-') ++ "\n"
  let msg := msg ++ String.join (chain.map format_row)
  msg ++ "```\n"

/-- Everything of the message before the timestamp interpolation. -/
def msgHead (symbol : String) (spot_price : ℚ) : String :=
  "🔔 *" ++ symbol ++ " Option Chain Update*\n"
    ++ "📊 *Spot Price:* ₹" ++ pyFormatFloat2 spot_price ++ "\n"

/-- Everything of the message after the timestamp interpolation,
starting with the newline that closes the timestamp line. -/
def msgTail (chain : List ChainRow) : String :=
  "\n━━━━━━━━━━━━━━━━━━━━\n\n"
    ++ "```\n"
    ++ padCharsLeft 7 "Strike" ++ " " ++ padCharsLeft 10 "CE LTP" ++ " "
    ++ padCharsLeft 10 "PE LTP" ++ "\n"
    ++ String.mk (List.replicate 35 '-') ++ "\n"
    ++ String.join (chain.map format_row)
    ++ "```\n"

/-- One configured instrument. -/
structure Instrument where
  security_id : String
  exchange : String

/-- Processing of a single instrument inside one poll cycle: fetch and
extract; absence means "no LTP this cycle" and no message, otherwise the
chain is built and formatted. -/
def process_instrument (ltpOf : String → String → Option ℚ) (window : ℕ) (ts : String)
    (sym : String) (cfg : Instrument) : Option String :=
  match ltpOf cfg.security_id cfg.exchange with
  | none => none
  | some ltp => some (format_message ts sym ltp (build_option_chain window sym ltp))

/-- The `for sym, cfg in INSTRUMENTS.items()` loop of one poll cycle:
each instrument is processed in turn and an absent price only skips that
instrument (`continue`). -/
def run_cycle (ltpOf : String → String → Option ℚ) (window : ℕ) (ts : String) :
    List (String × Instrument) → List (String × Option String)
  | [] => []
  | (sym, cfg) :: rest =>
    (sym, process_instrument ltpOf window ts sym cfg) :: run_cycle ltpOf window ts rest

/-- Outcome of executing the body of one `while self.running` iteration:
it completed, an exception escaped to the outer `except Exception`, or
the task was cancelled. -/
inductive CycleResult where
  | ok
  | exn
  | cancelled

/-- Whether the loop keeps going after an iteration. -/
inductive LoopState where
  | running
  | stopped

/-- One step of `OptionChainBot.poll_loop`: a false running flag exits
the `while`; cancellation breaks; a completed cycle sleeps
`POLL_INTERVAL + jitter`; an escaped exception sleeps
`min(60, POLL_INTERVAL)`; in both of the latter cases the loop
continues.  The second component is the sleep before the next
iteration (`none` when the loop terminates). -/
def poll_step (runningFlag : Bool) (res : CycleResult) (interval : ℕ) (jitter : ℚ) :
    LoopState × Option ℚ :=
  match runningFlag with
  | false => (.stopped, none)
  | true =>
    match res with
    | .cancelled => (.stopped, none)
    | .ok => (.running, some ((interval : ℚ) + jitter))
    | .exn => (.running, some ((min 60 interval : ℕ) : ℚ))

/-- Direct probe through an optional body: nothing when the container
key is absent, otherwise the probe of its value. -/
def optProbe : Option Json → Option ℚ
  | none => none
  | some b => probeBody b

/-- A 200-element sequence, used to exercise the `[:200]` truncation. -/
def manyNums : List Json :=
  List.replicate 200 (Json.num 0)

section Helpers

lemma deepSearchFuel_num (n : ℕ) (q : ℚ) : deepSearchFuel n (.num q) = [] := by
  cases n <;> rfl

lemma findSome_cons_or {α β : Type} (f : α → Option β) (a : α) (l : List α) :
    (a :: l).findSome? f = (f a).or (l.findSome? f) := by
  cases h : f a <;> simp [List.findSome?_cons, h, Option.or]

lemma get_ltp_extract_obj (fs : List (String × Json)) (h : truthy (.obj fs) = true) :
    get_ltp_extract (some (.obj fs)) =
      match (bodyCandidates fs).findSome? probeBody with
      | some v => some v
      | none => (deep_search_numeric_candidates (.obj fs) 0 4).head? := by
  cases fs with
  | nil => simp [truthy] at h
  | cons a t => rfl

lemma candidates_eval (fs : List (String × Json)) :
    (bodyCandidates fs).findSome? probeBody =
      ((optProbe (Json.lookup fs "data")).or
        ((optProbe (Json.lookup fs "result")).or
          ((optProbe (Json.lookup fs "response")).or
            ((optProbe (Json.lookup fs "payload")).or (probeBody (.obj fs)))))) := by
  unfold bodyCandidates containerKeys
  cases h1 : Json.lookup fs "data" <;> cases h2 : Json.lookup fs "result" <;>
    cases h3 : Json.lookup fs "response" <;> cases h4 : Json.lookup fs "payload" <;>
      simp [List.filterMap_cons, h1, h2, h3, h4, findSome_cons_or,
        List.findSome?_cons, List.findSome?_nil, optProbe, Option.or_assoc]

lemma lookup_ne_nil {fs : List (String × Json)} {key : String} {d : Json}
    (h : Json.lookup fs key = some d) : truthy (.obj fs) = true := by
  cases fs with
  | nil => simp [Json.lookup] at h
  | cons a t => simp [truthy]

lemma probeBody_ne_nil {fs : List (String × Json)} {v : ℚ}
    (h : probeBody (.obj fs) = some v) : truthy (.obj fs) = true := by
  cases fs with
  | nil =>
    simp [probeBody, ltpKeys, probeKey, Json.lookup, List.findSome?_cons,
      List.findSome?_nil] at h
  | cons a t => simp [truthy]

end Helpers

/-- C1: for every input response — absent (`None`), non-mapping
top-level values, and arbitrarily nested or malformed structures — the
quote extraction of `get_ltp` produces either a numeric price or
absence.  The embedding is a total function in which every fallible
Python operation carries its failure branch, so this Option-shaped
result is the shallow rendering of "never raises"; the conjuncts record
the absent-input case, the non-mapping (sequence) case, and the same
shape for the full `get_ltp` entry point. -/
theorem spec_c1 :
    (∀ resp : Option Json,
      get_ltp_extract resp = none ∨ ∃ q : ℚ, get_ltp_extract resp = some q) ∧
    get_ltp_extract none = none ∧
    (∀ xs : List Json, get_ltp_extract (some (.arr xs)) = none) ∧
    (∀ cfg dhanFetch httpFetch sid exch,
      get_ltp cfg dhanFetch httpFetch sid exch = none ∨
        ∃ q : ℚ, get_ltp cfg dhanFetch httpFetch sid exch = some q) := by
  refine ⟨?_, rfl, ?_, ?_⟩
  · intro resp
    cases h : get_ltp_extract resp with
    | none => exact Or.inl rfl
    | some q => exact Or.inr ⟨q, rfl⟩
  · intro xs
    cases xs with
    | nil => rfl
    | cons a t => rfl
  · intro cfg dhanFetch httpFetch sid exch
    cases h : get_ltp cfg dhanFetch httpFetch sid exch with
    | none => exact Or.inl rfl
    | some q => exact Or.inr ⟨q, rfl⟩

/-- C2 counterexample: the claim puts the response itself first among
the candidate bodies, so on `{"LTP": 2, "data": {"LTP": 1}}` it
requires the answer `2.0`; the source appends the root body last
(after `data`, `result`, `response`, `payload`), so the extraction
returns the `data` match `1.0`. -/
theorem spec_c2_counterexample :
    get_ltp_extract
      (some (.obj [("LTP", .num 2), ("data", .obj [("LTP", .num 1)])])) = some 1 := by
  decide

/-- C2 amended: the candidate bodies are probed in the order `data`,
`result`, `response`, `payload` (each only if present), and the
response itself is probed last; an earlier body's match short-circuits
and takes precedence over any later body's match. -/
theorem spec_c2_amended :
    (∀ fs d v, Json.lookup fs "data" = some d → probeBody d = some v →
      get_ltp_extract (some (.obj fs)) = some v) ∧
    (∀ fs d v, optProbe (Json.lookup fs "data") = none →
      Json.lookup fs "result" = some d → probeBody d = some v →
      get_ltp_extract (some (.obj fs)) = some v) ∧
    (∀ fs d v, optProbe (Json.lookup fs "data") = none →
      optProbe (Json.lookup fs "result") = none →
      Json.lookup fs "response" = some d → probeBody d = some v →
      get_ltp_extract (some (.obj fs)) = some v) ∧
    (∀ fs d v, optProbe (Json.lookup fs "data") = none →
      optProbe (Json.lookup fs "result") = none →
      optProbe (Json.lookup fs "response") = none →
      Json.lookup fs "payload" = some d → probeBody d = some v →
      get_ltp_extract (some (.obj fs)) = some v) ∧
    (∀ fs v, optProbe (Json.lookup fs "data") = none →
      optProbe (Json.lookup fs "result") = none →
      optProbe (Json.lookup fs "response") = none →
      optProbe (Json.lookup fs "payload") = none →
      probeBody (.obj fs) = some v →
      get_ltp_extract (some (.obj fs)) = some v) := by
  refine ⟨?_, ?_, ?_, ?_, ?_⟩
  · intro fs d v h1 h2
    rw [get_ltp_extract_obj fs (lookup_ne_nil h1), candidates_eval]
    simp [optProbe, h1, h2, Option.or]
  · intro fs d v h0 h1 h2
    rw [get_ltp_extract_obj fs (lookup_ne_nil h1), candidates_eval, h0, h1]
    simp [optProbe, h2, Option.or]
  · intro fs d v h0 h0b h1 h2
    rw [get_ltp_extract_obj fs (lookup_ne_nil h1), candidates_eval, h0, h0b, h1]
    simp [optProbe, h2, Option.or]
  · intro fs d v h0 h0b h0c h1 h2
    rw [get_ltp_extract_obj fs (lookup_ne_nil h1), candidates_eval, h0, h0b, h0c, h1]
    simp [optProbe, h2, Option.or]
  · intro fs v h0 h0b h0c h0d h2
    rw [get_ltp_extract_obj fs (probeBody_ne_nil h2), candidates_eval, h0, h0b, h0c, h0d, h2]
    simp [Option.or]

/-- Witness for C2 amended: each precedence conjunct applied at a
concrete response. -/
theorem spec_c2_witness :
    get_ltp_extract (some (.obj [("data", .obj [("ltp", .num 5)])])) = some 5 ∧
    get_ltp_extract (some (.obj [("result", .obj [("ltp", .num 6)])])) = some 6 ∧
    get_ltp_extract (some (.obj [("response", .obj [("ltp", .num 7)])])) = some 7 ∧
    get_ltp_extract (some (.obj [("payload", .obj [("ltp", .num 8)])])) = some 8 ∧
    get_ltp_extract (some (.obj [("last", .num 9)])) = some 9 :=
  ⟨spec_c2_amended.1 [("data", .obj [("ltp", .num 5)])] (.obj [("ltp", .num 5)]) 5
      rfl rfl,
   spec_c2_amended.2.1 [("result", .obj [("ltp", .num 6)])] (.obj [("ltp", .num 6)]) 6
      rfl rfl rfl,
   spec_c2_amended.2.2.1 [("response", .obj [("ltp", .num 7)])] (.obj [("ltp", .num 7)]) 7
      rfl rfl rfl rfl,
   spec_c2_amended.2.2.2.1 [("payload", .obj [("ltp", .num 8)])] (.obj [("ltp", .num 8)]) 8
      rfl rfl rfl rfl rfl,
   spec_c2_amended.2.2.2.2 [("last", .num 9)] 9
      rfl rfl rfl rfl rfl⟩

/-- C3: the direct probe tries `LTP`, `ltp`, `lastPrice`,
`last_traded_price`, `lastTradedPrice`, `last` in that order; the first
present key with a non-null, non-empty-string value wins; a mapping
`{"LTP": X}` with `X` a finite number yields `X`; a comma-separated
string such as `"1,234.50"` yields `1234.50`; a coercion failure (or a
null / empty-string value) moves on to the next key, and a body whose
probe fails entirely moves on to the next candidate body. -/
theorem spec_c3 :
    (∀ (x : ℚ) rest, probeBody (.obj (("LTP", .num x) :: rest)) = some x) ∧
    probeBody (.obj [("lastPrice", .num 1), ("ltp", .num 2)]) = some 2 ∧
    get_ltp_extract (some (.obj [("LTP", .str "1,234.50")])) = some (1234.5 : ℚ) ∧
    (∀ (x : ℚ) rest,
      probeBody (.obj (("LTP", .str "oops") :: ("ltp", .num x) :: rest)) = some x) ∧
    (∀ (x : ℚ) rest,
      probeBody (.obj (("LTP", .null) :: ("ltp", .num x) :: rest)) = some x) ∧
    (∀ (x : ℚ) rest,
      probeBody (.obj (("LTP", .str "") :: ("ltp", .num x) :: rest)) = some x) ∧
    get_ltp_extract (some (.obj [("data", .obj [("LTP", .str "z")]), ("LTP", .num 7)]))
      = some 7 := by
  have hoops : pyFloatOfString (removeCommas "oops") = none := by decide
  refine ⟨?_, by decide, ?_, ?_, ?_, ?_, by decide⟩
  · intro x rest
    simp [probeBody, ltpKeys, List.findSome?_cons, probeKey, Json.lookup,
      excludedVal, coerceDirect]
  · have hc : coerceDirect (Json.str "1,234.50") = some (1234.5 : ℚ) := by
      show pyFloatOfString (removeCommas "1,234.50") = some (1234.5 : ℚ)
      have hp : floatPartsCore (stripChars (removeCommas "1,234.50").toList)
          = some ⟨false, 1234, 50, 2, false, 0⟩ := by decide
      rw [pyFloatOfString, hp]
      norm_num [partsToRat]
    simp [get_ltp_extract, truthy, bodyCandidates, containerKeys, Json.lookup, probeBody,
      ltpKeys, probeKey, excludedVal, List.findSome?_cons, hc]
  · intro x rest
    simp [probeBody, ltpKeys, List.findSome?_cons, probeKey, Json.lookup,
      excludedVal, hoops, coerceDirect]
  · intro x rest
    simp [probeBody, ltpKeys, List.findSome?_cons, probeKey, Json.lookup,
      excludedVal, coerceDirect]
  · intro x rest
    simp [probeBody, ltpKeys, List.findSome?_cons, probeKey, Json.lookup,
      excludedVal, coerceDirect]

/-- C4 counterexample: the claim has the deep scan cover a sequence at
top level, which would make the extraction return the scan's first hit
`5.0` on `[{"ltp": 5}]`; in the source the scan (and the whole probing
block) sits inside `if isinstance(resp, dict)`, so a top-level sequence
yields absence even though the scan itself would find the value. -/
theorem spec_c4_counterexample :
    get_ltp_extract (some (.arr [.obj [("ltp", .num 5)]])) = none ∧
    deep_search_numeric_candidates (.arr [.obj [("ltp", .num 5)]]) 0 4 = [5] := by
  constructor <;> decide

/-- C4 amended: only for mapping responses on which no direct key probe
succeeds does the bounded recursive scan run, and its first collected
value (in traversal order) is what the extraction returns; the scan
visits entries up to depth 4 (a call past the bound collects nothing),
reads at most 200 sequence elements per level (elements past 200 do not
affect the result), and collects exactly the numeric-valued entries
whose key name matches the case-insensitive substring filter.  A
non-mapping top level (in particular a sequence) is never scanned. -/
theorem spec_c4_amended :
    (∀ fs, truthy (.obj fs) = true →
      (bodyCandidates fs).findSome? probeBody = none →
      get_ltp_extract (some (.obj fs)) =
        (deep_search_numeric_candidates (.obj fs) 0 4).head?) ∧
    (∀ obj d m, m < d → deep_search_numeric_candidates obj d m = []) ∧
    (∀ d m xs ys, xs.length = 200 →
      deep_search_numeric_candidates (.arr (xs ++ ys)) d m =
        deep_search_numeric_candidates (.arr xs) d m) ∧
    (∀ k q d m, keyMatch k = false →
      deep_search_numeric_candidates (.obj [(k, .num q)]) d m = []) ∧
    (∀ k q d m, keyMatch k = true → d ≤ m →
      deep_search_numeric_candidates (.obj [(k, .num q)]) d m = [q]) ∧
    (∀ xs : List Json, get_ltp_extract (some (.arr xs)) = none) := by
  refine ⟨?_, ?_, ?_, ?_, ?_, ?_⟩
  · intro fs h1 h2
    rw [get_ltp_extract_obj fs h1, h2]
  · intro obj d m h
    have hz : m + 1 - d = 0 := by omega
    rw [deep_search_numeric_candidates, hz]
    rfl
  · intro d m xs ys h
    rw [deep_search_numeric_candidates, deep_search_numeric_candidates]
    cases hf : m + 1 - d with
    | zero => rfl
    | succ n =>
      have htake : (xs ++ ys).take 200 = xs.take 200 := by
        rw [List.take_append_eq_append_take]
        simp [h]
      simp [deepSearchFuel, htake]
  · intro k q d m h
    rw [deep_search_numeric_candidates]
    cases hf : m + 1 - d with
    | zero => rfl
    | succ n => simp [deepSearchFuel, leafHit, h, deepSearchFuel_num]
  · intro k q d m h hd
    have hf : m + 1 - d = (m - d) + 1 := by omega
    rw [deep_search_numeric_candidates, hf]
    simp [deepSearchFuel, leafHit, h, deepSearchFuel_num]
  · intro xs
    cases xs with
    | nil => rfl
    | cons a t => rfl

/-- Witness for C4 amended: the conjuncts applied at concrete inputs —
a mapping whose only price sits below a sequence inside the scan, an
exhausted depth bound, a 200-element truncation, a rejected key name,
and an accepted key name. -/
theorem spec_c4_witness :
    get_ltp_extract (some (.obj [("a", .arr [.obj [("lastPrice", .num 3)]])])) =
      (deep_search_numeric_candidates (.obj [("a", .arr [.obj [("lastPrice", .num 3)]])]) 0 4).head? ∧
    deep_search_numeric_candidates (.obj [("ltp", .num 1)]) 5 4 = [] ∧
    deep_search_numeric_candidates (.arr (manyNums ++ [.obj [("ltp", .num 8)]])) 0 4 =
      deep_search_numeric_candidates (.arr manyNums) 0 4 ∧
    deep_search_numeric_candidates (.obj [("foo", .num 6)]) 0 4 = [] ∧
    deep_search_numeric_candidates (.obj [("lastPrice", .num 3)]) 0 4 = [3] :=
  ⟨spec_c4_amended.1 [("a", .arr [.obj [("lastPrice", .num 3)]])] (by decide) (by decide),
   spec_c4_amended.2.1 (.obj [("ltp", .num 1)]) 5 4 (by omega),
   spec_c4_amended.2.2.1 0 4 manyNums [.obj [("ltp", .num 8)]]
      (by rw [manyNums, List.length_replicate]),
   spec_c4_amended.2.2.2.1 "foo" 6 0 4 (by decide),
   spec_c4_amended.2.2.2.2.1 "lastPrice" 3 0 4 (by decide) (by omega)⟩

/-- C5 counterexample: the claim repeats the direct key probe on nested
mappings under `quote`/`market`/`result`, which on
`{"data": {"lt_x": 7, "quote": {"LTP": 9}}}` would return `9.0` (no
direct key matches, and the nested probe of `quote` finds `LTP`); the
source has no such re-probe step, falls through to the deep scan, and
returns the earlier traversal hit `7.0` under the key `lt_x`. -/
theorem spec_c5_counterexample :
    get_ltp_extract
      (some (.obj [("data", .obj [("lt_x", .num 7), ("quote", .obj [("LTP", .num 9)])])]))
      = some 7 := by
  decide

/-- C5 amended: there is no container-key re-probe step; prices nested
under conventional containers are recovered by the deep scan instead,
so for every response of the shape `{"data": {"quote": {"lastPrice":
v}}}` with `v` numeric the extraction returns `v` (first hit of the
scan in traversal order). -/
theorem spec_c5_amended (v : ℚ) :
    get_ltp_extract
      (some (.obj [("data", .obj [("quote", .obj [("lastPrice", .num v)])])])) = some v := by
  have hk : keyMatch "lastPrice" = true := by decide
  have hd : keyMatch "data" = false := by decide
  have hq : keyMatch "quote" = false := by decide
  simp [get_ltp_extract, truthy, bodyCandidates, containerKeys, Json.lookup, probeBody,
    ltpKeys, probeKey, List.filterMap_cons, List.findSome?_cons, List.findSome?_nil,
    deep_search_numeric_candidates, deepSearchFuel, leafHit, hk, hd, hq]

lemma range_filter_eq_single (p : ℕ → Bool) (w n : ℕ) (hw : w < n)
    (hp : ∀ j, p j = true ↔ j = w) : (List.range n).filter p = [w] := by
  induction n with
  | zero => omega
  | succ n ih =>
    rw [List.range_succ, List.filter_append]
    by_cases hwn : w = n
    · subst hwn
      have h1 : (List.range w).filter p = [] := by
        rw [List.filter_eq_nil_iff]
        intro a ha hpa
        have := (hp a).mp hpa
        have := List.mem_range.mp ha
        omega
      have h2 : p w = true := (hp w).mpr rfl
      simp [h1, h2]
    · have hw2 : w < n := by omega
      rw [ih hw2]
      have h2 : p n = false := by
        cases hpn : p n with
        | false => rfl
        | true => exact absurd ((hp n).mp hpn) (by omega)
      simp [h2]

lemma build_option_chain_eq (w : ℕ) (sym : String) (spot : ℚ) :
    build_option_chain w sym spot =
      (List.range (2 * w + 1)).map (fun (j : ℕ) =>
        ⟨atm_strike sym spot + ((j : ℤ) - (w : ℤ)) * 50, ⟨0, 0, none, 0⟩, ⟨0, 0, none, 0⟩,
          ((j : ℤ) - (w : ℤ)) == 0⟩) := by
  have hi : strike_interval sym = 50 := by
    rw [strike_interval]
    exact ite_self 50
  rw [build_option_chain]
  simp only [hi, get_option_data, get_nearest_expiry]

/-- C6: for every finite spot price, window and symbol (the strike
interval the code uses is 50 for every symbol), the chain has exactly
`2*w + 1` rows; the row at position `j` carries strike
`atm + (j - w) * 50` with `atm = roundHalfEven(spot / 50) * 50`
(Python banker's rounding), so the strikes ascend; and filtering the
at-the-money flag leaves exactly the single row whose strike is `atm`. -/
theorem spec_c6 (w : ℕ) (sym : String) (spot : ℚ) :
    (build_option_chain w sym spot).length = 2 * w + 1 ∧
    (build_option_chain w sym spot).map (fun r => r.strike) =
      (List.range (2 * w + 1)).map (fun (j : ℕ) => atm_strike sym spot + ((j : ℤ) - (w : ℤ)) * 50) ∧
    (build_option_chain w sym spot).Pairwise (fun a b => a.strike < b.strike) ∧
    (build_option_chain w sym spot).filter (fun r => r.is_atm) =
      [⟨atm_strike sym spot, ⟨0, 0, none, 0⟩, ⟨0, 0, none, 0⟩, true⟩] := by
  rw [build_option_chain_eq]
  refine ⟨by simp, by simp, ?_, ?_⟩
  · refine List.Pairwise.map _ ?_ (List.pairwise_lt_range (2 * w + 1))
    intro a b hab
    simp only
    omega
  · rw [List.filter_map]
    have hf : (List.range (2 * w + 1)).filter
        ((fun r : ChainRow => r.is_atm) ∘ (fun (j : ℕ) =>
          (⟨atm_strike sym spot + ((j : ℤ) - (w : ℤ)) * 50, ⟨0, 0, none, 0⟩, ⟨0, 0, none, 0⟩,
            ((j : ℤ) - (w : ℤ)) == 0⟩ : ChainRow))) = [w] := by
      refine range_filter_eq_single _ w (2 * w + 1) (by omega) ?_
      intro j
      simp only [Function.comp]
      constructor
      · intro h
        have := beq_iff_eq.mp h
        omega
      · intro h
        subst h
        simp
    rw [hf]
    simp

/-- C7 counterexample: the claim says the chain builder never raises
for any input spot price and degrades to an empty sequence on internal
error; `build_option_chain` has no exception handler, and on a `NaN`
spot the `round()` call raises and the error propagates (it is not
converted into an empty row list). -/
theorem spec_c7_counterexample :
    build_option_chain_float 5 "NIFTY50" PyFloat.nan =
      Except.error "cannot convert float NaN to integer" := by
  rfl

/-- C7 amended: for every finite spot price the builder completes
without error and returns exactly the rows of the pure chain
construction; only a non-finite spot (NaN or an infinity) makes the
rounding step raise, and that error propagates to the caller — the
builder never returns an empty sequence in its place. -/
theorem spec_c7_amended (w : ℕ) (sym : String) (q : ℚ) :
    build_option_chain_float w sym (PyFloat.finite q) =
      Except.ok (build_option_chain w sym q) := by
  rfl

/-- C8: one poll-loop iteration terminates the loop only when the
running flag is false or the cycle was cancelled — a completed cycle
sleeps the configured interval plus jitter and continues, an escaped
exception sleeps `min(60, interval)` and continues; within a cycle each
instrument is processed independently (the cycle output is one entry
per instrument, and a head instrument's outcome never drops the rest);
and a dhan fetch that raises (modelled as the fetch oracle returning
nothing) yields absence for that instrument rather than an error. -/
theorem spec_c8 :
    (∀ interval jitter, poll_step true CycleResult.ok interval jitter =
      (LoopState.running, some ((interval : ℚ) + jitter))) ∧
    (∀ interval jitter, poll_step true CycleResult.exn interval jitter =
      (LoopState.running, some ((min 60 interval : ℕ) : ℚ))) ∧
    (∀ interval jitter, poll_step true CycleResult.cancelled interval jitter =
      (LoopState.stopped, none)) ∧
    (∀ res interval jitter, poll_step false res interval jitter =
      (LoopState.stopped, none)) ∧
    (∀ f w ts sym cfg rest, run_cycle f w ts ((sym, cfg) :: rest) =
      (sym, process_instrument f w ts sym cfg) :: run_cycle f w ts rest) ∧
    (∀ f w ts insts, (run_cycle f w ts insts).length = insts.length) ∧
    (∀ tok httpFetch sid exch,
      get_ltp ⟨true, tok⟩ (fun _ _ => none) httpFetch sid exch = none) := by
  refine ⟨fun _ _ => rfl, fun _ _ => rfl, fun _ _ => rfl, fun _ _ _ => rfl,
    fun _ _ _ _ _ _ => rfl, ?_, fun _ _ _ _ => rfl⟩
  intro f w ts insts
  induction insts with
  | nil => rfl
  | cons a t ih =>
    cases a with
    | mk sym cfg => simp [run_cycle, ih]

/-- C9: the report is deterministic up to the render timestamp — for
every timestamp the output factors as a head depending only on symbol
and spot price, the timestamp line, and a tail depending only on the
chain, so two calls with identical symbol, spot and chain differ
exactly in the timestamp field; each chain row renders with the
at-the-money marker exactly on the flagged row, the strike right-padded
to at least 7 characters (the padded field is never shorter than 7),
and each leg price carrying exactly two digits after the decimal
point. -/
theorem spec_c9 :
    (∀ ts sym spot chain, format_message ts sym spot chain =
      msgHead sym spot ++ "⏰ *Time:* " ++ ts ++ msgTail chain) ∧
    (∀ r : ChainRow, format_row r =
      (if r.is_atm then "➤" else " ") ++ padCharsLeft 7 (toString r.strike) ++ " "
        ++ padCharsLeft 10 (pyFormatFloat2 r.CE.ltp) ++ " "
        ++ padCharsLeft 10 (pyFormatFloat2 r.PE.ltp) ++ "\n") ∧
    (∀ s : String, 7 ≤ (padCharsLeft 7 s).length) ∧
    (∀ q : ℚ, pyFormatFloat2 q =
      (if q < 0 then "-" else "") ++ toString ((roundHalfEven (|q| * 100)).toNat / 100)
        ++ "." ++ fracTwo ((roundHalfEven (|q| * 100)).toNat)) ∧
    (∀ m : ℕ, (fracTwo m).length = 2) := by
  refine ⟨?_, fun r => rfl, ?_, fun q => rfl, fun m => rfl⟩
  · intro ts sym spot chain
    simp [format_message, msgHead, msgTail, String.append_assoc]
  · intro s
    have h1 : (padCharsLeft 7 s).length = (7 - s.length) + s.length := by
      simp [padCharsLeft, String.length_append]
    omega

/-- C10: with no dhan client and an empty access token, `get_ltp`
returns absence for every security id and exchange whatever the two
fetch oracles would answer (no fetch is consulted), and consequently a
poll cycle over any instrument list produces no message for any
instrument. -/
theorem spec_c10 :
    (∀ dhanFetch httpFetch sid exch,
      get_ltp ⟨false, ""⟩ dhanFetch httpFetch sid exch = none) ∧
    (∀ w ts insts dhanFetch httpFetch,
      run_cycle (get_ltp ⟨false, ""⟩ dhanFetch httpFetch) w ts insts =
        insts.map (fun p => (p.1, none))) := by
  refine ⟨fun _ _ _ _ => rfl, ?_⟩
  intro w ts insts dhanFetch httpFetch
  induction insts with
  | nil => rfl
  | cons a t ih =>
    cases a with
    | mk sym cfg => simp [run_cycle, process_instrument, get_ltp, ih]
